import Mathlib

/-!
Verification of the vector-field visualization in docs/assets/js/page-nav.js
(class VectorField).  The numeric state a browser holds is modelled with
exact arithmetic: stored coordinates are rationals, the field math that
involves a square root lives in the reals.
-/

namespace VectorField

/-- Result of VectorField.calculateField: direction components, clamped
strength, and the distance (absent on the early-return branch, where the
source object carries no distance property). -/
structure FieldResult where
  vx : ℝ
  vy : ℝ
  strength : ℝ
  distance : Option ℝ

/-- VectorField.calculateField (page-nav.js lines 479-498): from the mouse
position (mx, my) and a sample point (x, y), compute the Euclidean distance;
below the 5px threshold return the zero vector, otherwise the inverse-distance
strength 1 / (distance * 0.01 + 0.1) clamped to 2, scaled onto the normalized
direction from the point toward the mouse. -/
noncomputable def calculateField (mx my x y : ℝ) : FieldResult :=
  let dx := mx - x
  let dy := my - y
  let distance := Real.sqrt (dx * dx + dy * dy)
  if distance < 5 then
    { vx := 0, vy := 0, strength := 0, distance := none }
  else
    let strength := 1 / (distance * 0.01 + 0.1)
    let normalizedStrength := min strength 2
    { vx := dx / distance * normalizedStrength
      vy := dy / distance * normalizedStrength
      strength := normalizedStrength
      distance := some distance }

/-- A grid particle as pushed by VectorField.createParticles: fixed
coordinates and the (never later mutated) velocity fields initialized to 0. -/
structure Particle where
  x : ℕ
  y : ℕ
  vx : ℚ
  vy : ℚ
  deriving Repr, DecidableEq

/-- VectorField.createParticles (page-nav.js lines 432-447): cols =
ceil(width / gridSize) + 1, rows = ceil(height / gridSize) + 1, and a nested
loop over x then y pushing particles at (x * gridSize, y * gridSize). -/
def createParticles (width height gridSize : ℕ) : List Particle :=
  let cols := ⌈(width : ℚ) / gridSize⌉₊ + 1
  let rows := ⌈(height : ℚ) / gridSize⌉₊ + 1
  (List.range cols).flatMap fun x =>
    (List.range rows).map fun y =>
      { x := x * gridSize, y := y * gridSize, vx := 0, vy := 0 }

/-- An rgba color as produced by VectorField.getColor. -/
structure Color where
  r : ℤ
  g : ℤ
  b : ℤ
  opacity : ℚ
  deriving Repr, DecidableEq

/-- VectorField.getColor (page-nav.js lines 507-530): normalize the distance
against 300, then pick the dark gradient (cyan to purple, alpha floored at
0.2) or the light gradient (blue to gray, alpha floored at 0.15). -/
def getColor (distance : ℚ) (isDark : Bool) : Color :=
  let maxDistance : ℚ := 300
  let normalizedDistance := min (distance / maxDistance) 1
  if isDark then
    { r := ⌊(96 : ℚ) - normalizedDistance * 30⌋
      g := ⌊(165 : ℚ) + normalizedDistance * 20⌋
      b := ⌊(250 : ℚ) - normalizedDistance * 40⌋
      opacity := max 0.2 (0.8 - normalizedDistance * 0.6) }
  else
    { r := ⌊(37 : ℚ) + normalizedDistance * 20⌋
      g := ⌊(99 : ℚ) + normalizedDistance * 40⌋
      b := ⌊(235 : ℚ) - normalizedDistance * 50⌋
      opacity := max 0.15 (0.7 - normalizedDistance * 0.55) }

/-- The mutable state owned by a VectorField instance (constructor,
page-nav.js lines 387-399), together with the pending animation-frame
callbacks the host scheduler still holds for it. -/
structure VFState where
  mouse : ℚ × ℚ
  gridSize : ℕ
  lineLength : ℕ
  particles : List Particle
  animationId : Option ℕ
  pendingFrames : List ℕ
  deriving Repr, DecidableEq

/-- VectorField constructor field initialization (page-nav.js lines 392-396):
mouse at (0, 0), gridSize 40, lineLength 25, empty particles, null
animationId; no frame has been scheduled yet. -/
def initState : VFState :=
  { mouse := (0, 0)
    gridSize := 40
    lineLength := 25
    particles := []
    animationId := none
    pendingFrames := [] }

/-- The mouseleave handler (page-nav.js lines 465-468): set the mouse to the
far-off-screen sentinel (-1000, -1000). -/
def mouseLeave (s : VFState) : VFState :=
  { s with mouse := (-1000, -1000) }

/-- JavaScript truthiness of the nullable numeric animationId: null and 0 are
falsy, every other number is truthy. -/
def jsTruthy : Option ℕ → Bool
  | none => false
  | some n => n != 0

/-- The host scheduler cancelling an animation frame: the callback with that
handle is removed from the pending queue; cancelling an absent handle is a
no-op (per the HTML standard). -/
def cancelAnimationFrame (pending : List ℕ) (id : ℕ) : List ℕ :=
  pending.filter (fun h => h ≠ id)

/-- VectorField.destroy (page-nav.js lines 634-638): if animationId is
truthy, cancel that animation frame; the field itself is left in place. -/
def destroy (s : VFState) : VFState :=
  if jsTruthy s.animationId then
    { s with pendingFrames := cancelAnimationFrame s.pendingFrames (s.animationId.getD 0) }
  else
    s

/-! Helper lemmas -/

/-- Evaluates a square root at a perfect square. -/
lemma sqrt_sq_eval (a b : ℝ) (hb : 0 ≤ b) (h : a = b * b) : Real.sqrt a = b := by
  rw [h, Real.sqrt_mul_self hb]

/-- calculateField on the early-return branch (distance below 5). -/
lemma calculateField_of_lt (mx my x y : ℝ)
    (h : Real.sqrt ((mx - x) * (mx - x) + (my - y) * (my - y)) < 5) :
    calculateField mx my x y = { vx := 0, vy := 0, strength := 0, distance := none } := by
  simp only [calculateField]
  rw [if_pos h]

/-- calculateField on the main branch (distance at least 5). -/
lemma calculateField_of_ge (mx my x y : ℝ)
    (h : 5 ≤ Real.sqrt ((mx - x) * (mx - x) + (my - y) * (my - y))) :
    calculateField mx my x y =
      { vx := (mx - x) / Real.sqrt ((mx - x) * (mx - x) + (my - y) * (my - y)) *
          min (1 / (Real.sqrt ((mx - x) * (mx - x) + (my - y) * (my - y)) * 0.01 + 0.1)) 2
        vy := (my - y) / Real.sqrt ((mx - x) * (mx - x) + (my - y) * (my - y)) *
          min (1 / (Real.sqrt ((mx - x) * (mx - x) + (my - y) * (my - y)) * 0.01 + 0.1)) 2
        strength :=
          min (1 / (Real.sqrt ((mx - x) * (mx - x) + (my - y) * (my - y)) * 0.01 + 0.1)) 2
        distance := some (Real.sqrt ((mx - x) * (mx - x) + (my - y) * (my - y))) } := by
  simp only [calculateField]
  rw [if_neg (not_lt.mpr h)]

/-- Length of a rectangular nested loop: n outer iterations each emitting m
elements give n * m elements. -/
lemma length_flatMap_range {α : Type} (n m : ℕ) (g : ℕ → ℕ → α) :
    ((List.range n).flatMap fun x => (List.range m).map (g x)).length = n * m := by
  induction n with
  | zero => simp
  | succ k ih =>
      rw [List.range_succ, List.flatMap_append, List.length_append, ih]
      simp [Nat.succ_mul]

/-- The distance from pointer (100, 100) to sample point (100, 130) is 30. -/
lemma sqrt_scenario_30 :
    Real.sqrt (((100 : ℝ) - 100) * ((100 : ℝ) - 100) +
      ((100 : ℝ) - 130) * ((100 : ℝ) - 130)) = 30 := by
  apply sqrt_sq_eval _ _ (by norm_num)
  norm_num

/-! Claim theorems -/

/-- C1: for every pointer position and sample point whose Euclidean distance
is at least the 5px minimum threshold, calculateField returns magnitude
min(1 / (distance * 0.01 + 0.1), 2); in particular for pointer (100, 100)
and sample point (100, 130), at distance 30, the magnitude is exactly 2. -/
theorem C1_magnitude_formula :
    (∀ mx my x y : ℝ,
        5 ≤ Real.sqrt ((mx - x) * (mx - x) + (my - y) * (my - y)) →
        (calculateField mx my x y).strength =
          min (1 / (Real.sqrt ((mx - x) * (mx - x) + (my - y) * (my - y)) * 0.01 + 0.1)) 2) ∧
    (calculateField 100 100 100 130).strength = 2 := by
  constructor
  · intro mx my x y h
    rw [calculateField_of_ge mx my x y h]
  · rw [calculateField_of_ge 100 100 100 130 (by rw [sqrt_scenario_30]; norm_num)]
    simp only [sqrt_scenario_30]
    rw [min_eq_right (by norm_num)]

/-- Witness for C1 at pointer (0, 0) and sample point (0, 100). -/
theorem C1_magnitude_formula_witness :
    5 ≤ Real.sqrt (((0 : ℝ) - 0) * ((0 : ℝ) - 0) + ((0 : ℝ) - 100) * ((0 : ℝ) - 100)) ∧
    (calculateField 0 0 0 100).strength =
      min (1 / (Real.sqrt (((0 : ℝ) - 0) * ((0 : ℝ) - 0) +
        ((0 : ℝ) - 100) * ((0 : ℝ) - 100)) * 0.01 + 0.1)) 2 := by
  have h5 : 5 ≤ Real.sqrt (((0 : ℝ) - 0) * ((0 : ℝ) - 0) +
      ((0 : ℝ) - 100) * ((0 : ℝ) - 100)) := by
    rw [sqrt_sq_eval _ 100 (by norm_num) (by norm_num)]
    norm_num
  exact ⟨h5, C1_magnitude_formula.1 0 0 0 100 h5⟩

/-- C2 counterexample: at pointer (100, 100) and sample point (100, 130) the
returned magnitude is positive, yet the returned components satisfy
vx ^ 2 + vy ^ 2 = 4, not 1: the returned pair is the unit direction already
scaled by the magnitude, so it is not a unit vector. -/
theorem C2_unit_direction_cex :
    0 < (calculateField 100 100 100 130).strength ∧
    (calculateField 100 100 100 130).vx ^ 2 + (calculateField 100 100 100 130).vy ^ 2 = 4 ∧
    (calculateField 100 100 100 130).vx ^ 2 + (calculateField 100 100 100 130).vy ^ 2 ≠ 1 := by
  rw [calculateField_of_ge 100 100 100 130 (by rw [sqrt_scenario_30]; norm_num)]
  simp only [sqrt_scenario_30]
  norm_num

/-- C2 amended: the returned components are the unit direction toward the
pointer scaled by the magnitude, so for every pointer position and sample
point vx ^ 2 + vy ^ 2 equals the squared magnitude (in particular the pair
(vx / strength, vy / strength) is a unit vector whenever strength > 0, and
the returned pair is exactly zero on the below-threshold branch). -/
theorem C2_direction_norm_eq_strength (mx my x y : ℝ) :
    (calculateField mx my x y).vx ^ 2 + (calculateField mx my x y).vy ^ 2 =
      (calculateField mx my x y).strength ^ 2 := by
  by_cases h : Real.sqrt ((mx - x) * (mx - x) + (my - y) * (my - y)) < 5
  · rw [calculateField_of_lt mx my x y h]
    norm_num
  · push_neg at h
    rw [calculateField_of_ge mx my x y h]
    have hdpos : (0 : ℝ) < Real.sqrt ((mx - x) * (mx - x) + (my - y) * (my - y)) :=
      lt_of_lt_of_le (by norm_num) h
    have hdsq : Real.sqrt ((mx - x) * (mx - x) + (my - y) * (my - y)) ^ 2 =
        (mx - x) * (mx - x) + (my - y) * (my - y) :=
      Real.sq_sqrt (add_nonneg (mul_self_nonneg _) (mul_self_nonneg _))
    have hX : (0 : ℝ) < (mx - x) * (mx - x) + (my - y) * (my - y) := by
      rw [← hdsq]
      exact pow_pos hdpos 2
    have key : ((mx - x) / Real.sqrt ((mx - x) * (mx - x) + (my - y) * (my - y))) ^ 2 +
        ((my - y) / Real.sqrt ((mx - x) * (mx - x) + (my - y) * (my - y))) ^ 2 = 1 := by
      rw [div_pow, div_pow, div_add_div_same]
      rw [show (mx - x) ^ 2 + (my - y) ^ 2 =
        (mx - x) * (mx - x) + (my - y) * (my - y) from by ring]
      rw [hdsq]
      exact div_self (ne_of_gt hX)
    calc ((mx - x) / Real.sqrt ((mx - x) * (mx - x) + (my - y) * (my - y)) *
            min (1 / (Real.sqrt ((mx - x) * (mx - x) + (my - y) * (my - y)) * 0.01 + 0.1)) 2) ^ 2 +
          ((my - y) / Real.sqrt ((mx - x) * (mx - x) + (my - y) * (my - y)) *
            min (1 / (Real.sqrt ((mx - x) * (mx - x) + (my - y) * (my - y)) * 0.01 + 0.1)) 2) ^ 2
        = (((mx - x) / Real.sqrt ((mx - x) * (mx - x) + (my - y) * (my - y))) ^ 2 +
            ((my - y) / Real.sqrt ((mx - x) * (mx - x) + (my - y) * (my - y))) ^ 2) *
            (min (1 / (Real.sqrt ((mx - x) * (mx - x) + (my - y) * (my - y)) * 0.01 + 0.1)) 2) ^ 2 := by
          ring
      _ = (min (1 / (Real.sqrt ((mx - x) * (mx - x) + (my - y) * (my - y)) * 0.01 + 0.1)) 2) ^ 2 := by
          rw [key, one_mul]

/-- C4: for every pointer position and sample point at distance below the
5px minimum threshold, calculateField returns the exact zero vector; the
normalizing division only occurs on the branch where the distance is at
least 5, so it never runs with a near-zero divisor. -/
theorem C4_zero_below_threshold (mx my x y : ℝ)
    (h : Real.sqrt ((mx - x) * (mx - x) + (my - y) * (my - y)) < 5) :
    (calculateField mx my x y).vx = 0 ∧ (calculateField mx my x y).vy = 0 ∧
      (calculateField mx my x y).strength = 0 := by
  rw [calculateField_of_lt mx my x y h]
  norm_num

/-- Witness for C4 with pointer and sample point both at the origin. -/
theorem C4_zero_below_threshold_witness :
    Real.sqrt (((0 : ℝ) - 0) * ((0 : ℝ) - 0) + ((0 : ℝ) - 0) * ((0 : ℝ) - 0)) < 5 ∧
    ((calculateField 0 0 0 0).vx = 0 ∧ (calculateField 0 0 0 0).vy = 0 ∧
      (calculateField 0 0 0 0).strength = 0) := by
  have h : Real.sqrt (((0 : ℝ) - 0) * ((0 : ℝ) - 0) + ((0 : ℝ) - 0) * ((0 : ℝ) - 0)) < 5 := by
    rw [sqrt_sq_eval _ 0 le_rfl (by norm_num)]
    norm_num
  exact ⟨h, C4_zero_below_threshold 0 0 0 0 h⟩

/-- C3 counterexample: with the pointer at the origin, the sample point at
distance 3 (below the 5px threshold) gets magnitude 0 while the farther
sample point at distance 30 gets magnitude 2, so over the full distance
domain the magnitude is not monotonically non-increasing. -/
theorem C3_monotone_cex :
    Real.sqrt (((0 : ℝ) - 3) * ((0 : ℝ) - 3) + ((0 : ℝ) - 0) * ((0 : ℝ) - 0)) ≤
      Real.sqrt (((0 : ℝ) - 30) * ((0 : ℝ) - 30) + ((0 : ℝ) - 0) * ((0 : ℝ) - 0)) ∧
    (calculateField 0 0 3 0).strength < (calculateField 0 0 30 0).strength := by
  have h3 : Real.sqrt (((0 : ℝ) - 3) * ((0 : ℝ) - 3) + ((0 : ℝ) - 0) * ((0 : ℝ) - 0)) = 3 :=
    sqrt_sq_eval _ 3 (by norm_num) (by norm_num)
  have h30 : Real.sqrt (((0 : ℝ) - 30) * ((0 : ℝ) - 30) + ((0 : ℝ) - 0) * ((0 : ℝ) - 0)) = 30 :=
    sqrt_sq_eval _ 30 (by norm_num) (by norm_num)
  refine ⟨by rw [h3, h30]; norm_num, ?_⟩
  rw [calculateField_of_lt 0 0 3 0 (by rw [h3]; norm_num),
    calculateField_of_ge 0 0 30 0 (by rw [h30]; norm_num)]
  simp only [h30]
  norm_num [lt_min_iff]

/-- C3 amended: restricted to distances at or above the 5px minimum
threshold, the magnitude is monotonically non-increasing in the distance to
the pointer; below the threshold the magnitude drops to 0, breaking
monotonicity over the full domain. -/
theorem C3_monotone_above_threshold (mx my x1 y1 x2 y2 : ℝ)
    (h5 : 5 ≤ Real.sqrt ((mx - x1) * (mx - x1) + (my - y1) * (my - y1)))
    (h12 : Real.sqrt ((mx - x1) * (mx - x1) + (my - y1) * (my - y1)) ≤
      Real.sqrt ((mx - x2) * (mx - x2) + (my - y2) * (my - y2))) :
    (calculateField mx my x2 y2).strength ≤ (calculateField mx my x1 y1).strength := by
  rw [calculateField_of_ge mx my x1 y1 h5, calculateField_of_ge mx my x2 y2 (le_trans h5 h12)]
  dsimp only
  apply min_le_min _ le_rfl
  apply one_div_le_one_div_of_le
  · positivity
  · linarith

/-- Witness for C3 amended, with the pointer at the origin and sample points
at distances 5 and 30. -/
theorem C3_monotone_above_threshold_witness :
    (5 ≤ Real.sqrt (((0 : ℝ) - 5) * ((0 : ℝ) - 5) + ((0 : ℝ) - 0) * ((0 : ℝ) - 0)) ∧
      Real.sqrt (((0 : ℝ) - 5) * ((0 : ℝ) - 5) + ((0 : ℝ) - 0) * ((0 : ℝ) - 0)) ≤
        Real.sqrt (((0 : ℝ) - 30) * ((0 : ℝ) - 30) + ((0 : ℝ) - 0) * ((0 : ℝ) - 0))) ∧
    (calculateField 0 0 30 0).strength ≤ (calculateField 0 0 5 0).strength := by
  have h5 : Real.sqrt (((0 : ℝ) - 5) * ((0 : ℝ) - 5) + ((0 : ℝ) - 0) * ((0 : ℝ) - 0)) = 5 :=
    sqrt_sq_eval _ 5 (by norm_num) (by norm_num)
  have h30 : Real.sqrt (((0 : ℝ) - 30) * ((0 : ℝ) - 30) + ((0 : ℝ) - 0) * ((0 : ℝ) - 0)) = 30 :=
    sqrt_sq_eval _ 30 (by norm_num) (by norm_num)
  exact ⟨⟨by rw [h5], by rw [h5, h30]; norm_num⟩,
    C3_monotone_above_threshold 0 0 5 0 30 0 (by rw [h5]) (by rw [h5, h30]; norm_num)⟩

/-- C5: for every viewport size and positive spacing, createParticles
produces exactly (ceil(w / s) + 1) * (ceil(h / s) + 1) particles, and every
particle sits at coordinates (i * s, j * s) for natural numbers i, j. -/
theorem C5_grid_count (w h s : ℕ) (hs : 0 < s) :
    (createParticles w h s).length = (⌈(w : ℚ) / s⌉₊ + 1) * (⌈(h : ℚ) / s⌉₊ + 1) ∧
    ∀ p ∈ createParticles w h s, ∃ i j : ℕ, p.x = i * s ∧ p.y = j * s := by
  constructor
  · simp only [createParticles]
    exact length_flatMap_range _ _ _
  · intro p hp
    simp only [createParticles, List.mem_flatMap, List.mem_map, List.mem_range] at hp
    obtain ⟨i, hi, j, hj, rfl⟩ := hp
    exact ⟨i, j, rfl, rfl⟩

/-- Witness for C5 at an 80 x 40 viewport with spacing 40. -/
theorem C5_grid_count_witness :
    0 < 40 ∧
    ((createParticles 80 40 40).length = (⌈(80 : ℚ) / (40 : ℕ)⌉₊ + 1) * (⌈(40 : ℚ) / (40 : ℕ)⌉₊ + 1) ∧
      ∀ p ∈ createParticles 80 40 40, ∃ i j : ℕ, p.x = i * 40 ∧ p.y = j * 40) :=
  ⟨by norm_num, C5_grid_count 80 40 40 (by norm_num)⟩

/-- C6 failing input: after the mouseleave handler sets the sentinel
(-1000, -1000), the field strength at grid point (0, 0) is about 0.07, which
is above the 0.01 draw-skip threshold of VectorField.draw, so the frame
renderer still draws that vector: the sentinel does not make the field
negligible at every grid point. -/
theorem C6_sentinel_still_drawn :
    (0.01 : ℝ) <
      (calculateField ((mouseLeave initState).mouse.1 : ℝ)
        ((mouseLeave initState).mouse.2 : ℝ) 0 0).strength := by
  have hm1 : (((mouseLeave initState).mouse.1 : ℚ) : ℝ) = -1000 := by
    norm_num [mouseLeave, initState]
  have hm2 : (((mouseLeave initState).mouse.2 : ℚ) : ℝ) = -1000 := by
    norm_num [mouseLeave, initState]
  rw [hm1, hm2]
  have harg : ((-1000 : ℝ) - 0) * ((-1000 : ℝ) - 0) + ((-1000 : ℝ) - 0) * ((-1000 : ℝ) - 0) =
      2000000 := by norm_num
  have h2000 : Real.sqrt 4000000 = 2000 := sqrt_sq_eval _ 2000 (by norm_num) (by norm_num)
  have hub : Real.sqrt 2000000 < 2000 := by
    rw [← h2000]
    exact Real.sqrt_lt_sqrt (by norm_num) (by norm_num)
  have h25 : Real.sqrt 25 = 5 := sqrt_sq_eval _ 5 (by norm_num) (by norm_num)
  have hlb : (5 : ℝ) ≤ Real.sqrt 2000000 := by
    rw [← h25]
    exact Real.sqrt_le_sqrt (by norm_num)
  rw [calculateField_of_ge (-1000) (-1000) 0 0 (by rw [harg]; exact hlb)]
  dsimp only
  rw [harg]
  apply lt_min _ (by norm_num)
  have hb : (0 : ℝ) < Real.sqrt 2000000 * 0.01 + 0.1 := by positivity
  have hlt : Real.sqrt 2000000 * 0.01 + 0.1 < 100 := by nlinarith
  calc (0.01 : ℝ) = 1 / 100 := by norm_num
    _ < 1 / (Real.sqrt 2000000 * 0.01 + 0.1) := one_div_lt_one_div_of_lt hb hlt

/-- C7 counterexample: for the zero-sized viewport with the default spacing
the grid generator yields one particle, not an empty grid. -/
theorem C7_empty_grid_cex :
    (createParticles 0 0 40).length = 1 ∧ createParticles 0 0 40 ≠ [] := by
  have h : createParticles 0 0 40 = [{ x := 0, y := 0, vx := 0, vy := 0 }] := by
    simp [createParticles, List.range_succ]
  rw [h]
  exact ⟨rfl, by simp⟩

/-- C7 amended: for a zero-sized viewport the grid generator degrades to a
single sample point at the origin (1 column and 1 row from the two +1
terms), for every spacing; the component draws at most that one point and
does not fail. -/
theorem C7_zero_viewport_single_point (s : ℕ) :
    createParticles 0 0 s = [{ x := 0, y := 0, vx := 0, vy := 0 }] := by
  simp [createParticles, List.range_succ]

/-- C8: for both themes the alpha returned by getColor is monotonically
non-increasing in distance and never falls below the theme minimum floor,
with the light floor 0.15 strictly lower than the dark floor 0.2. -/
theorem C8_alpha_monotone_floored :
    (∀ (isDark : Bool) (d1 d2 : ℚ), d1 ≤ d2 →
        (getColor d2 isDark).opacity ≤ (getColor d1 isDark).opacity) ∧
    (∀ d : ℚ, 0.2 ≤ (getColor d true).opacity) ∧
    (∀ d : ℚ, 0.15 ≤ (getColor d false).opacity) ∧
    (0.15 : ℚ) < 0.2 := by
  refine ⟨?_, ?_, ?_, by norm_num⟩
  · intro isDark d1 d2 h12
    have hnd : min (d1 / 300) 1 ≤ min (d2 / 300) 1 :=
      min_le_min (by linarith) le_rfl
    cases isDark
    · simp only [getColor, Bool.false_eq_true, if_false]
      exact max_le_max le_rfl (by nlinarith)
    · simp only [getColor, if_true]
      exact max_le_max le_rfl (by nlinarith)
  · intro d
    simp only [getColor, if_true]
    exact le_max_left _ _
  · intro d
    simp only [getColor, Bool.false_eq_true, if_false]
    exact le_max_left _ _

/-- Witness for C8 monotonicity at dark theme with distances 0 and 300. -/
theorem C8_alpha_monotone_floored_witness :
    ((0 : ℚ) ≤ 300) ∧ (getColor 300 true).opacity ≤ (getColor 0 true).opacity :=
  ⟨by norm_num, C8_alpha_monotone_floored.1 true 0 300 (by norm_num)⟩

/-- C9: destroy is idempotent: applying it twice to any controller state
gives the same final state as applying it once; the second cancel removes
nothing further from the pending-frame queue, so no double-cancel error can
arise. -/
theorem C9_destroy_idempotent (s : VFState) : destroy (destroy s) = destroy s := by
  by_cases h : jsTruthy s.animationId
  · simp [destroy, h, cancelAnimationFrame, List.filter_filter, Bool.and_self]
  · simp [destroy, h]

/-- C10: immediately after construction the pointer state is the in-viewport
origin (0, 0), not the off-screen sentinel (-1000, -1000), and at every
sample point at distance at least the 5px threshold from the origin the
evaluated field strength is strictly positive, so the first frames render a
non-trivial field pulling grid points toward the origin. -/
theorem C10_initial_mouse_origin :
    initState.mouse = (0, 0) ∧
    initState.mouse ≠ (-1000, -1000) ∧
    ∀ x y : ℝ,
      5 ≤ Real.sqrt (((initState.mouse.1 : ℝ) - x) * ((initState.mouse.1 : ℝ) - x) +
        ((initState.mouse.2 : ℝ) - y) * ((initState.mouse.2 : ℝ) - y)) →
      0 < (calculateField (initState.mouse.1 : ℝ) (initState.mouse.2 : ℝ) x y).strength := by
  refine ⟨rfl, by decide, ?_⟩
  intro x y hxy
  rw [calculateField_of_ge _ _ x y hxy]
  dsimp only
  apply lt_min
  · apply one_div_pos.mpr
    positivity
  · norm_num

/-- Witness for C10 at the sample point (40, 0). -/
theorem C10_initial_mouse_origin_witness :
    (5 ≤ Real.sqrt (((initState.mouse.1 : ℝ) - 40) * ((initState.mouse.1 : ℝ) - 40) +
        ((initState.mouse.2 : ℝ) - 0) * ((initState.mouse.2 : ℝ) - 0))) ∧
    0 < (calculateField (initState.mouse.1 : ℝ) (initState.mouse.2 : ℝ) 40 0).strength := by
  have hm1 : ((initState.mouse.1 : ℚ) : ℝ) = 0 := by norm_num [initState]
  have hm2 : ((initState.mouse.2 : ℚ) : ℝ) = 0 := by norm_num [initState]
  have h5 : 5 ≤ Real.sqrt (((initState.mouse.1 : ℝ) - 40) * ((initState.mouse.1 : ℝ) - 40) +
      ((initState.mouse.2 : ℝ) - 0) * ((initState.mouse.2 : ℝ) - 0)) := by
    rw [hm1, hm2, sqrt_sq_eval _ 40 (by norm_num) (by norm_num)]
    norm_num
  exact ⟨h5, C10_initial_mouse_origin.2.2 40 0 h5⟩

end VectorField
